import Mathlib

/-!
Verification of the AirWatch air-quality application (frontend classifier and
map marker logic, plus the backend station-resolution pipeline).

Frontend definitions are shallow embeddings of the JavaScript source in
`src/frontend/src/api/airquality.js`, `src/frontend/src/components/DataCard.jsx`
and `src/frontend/src/components/MapView.jsx`.  JavaScript numeric inputs are
modelled by `JSNum` (null / undefined / NaN / a rational), with the JS
comparison semantics the source relies on (`NaN <= c` is false).

The backend pipeline (progressive station locator, weather enricher, forecast
dispatcher) is not present in the repository snapshot; its definitions are
modelled from the specification, as marked on each definition.
-/

/-- A JavaScript numeric-or-missing value as it can reach the classifier:
`null`, `undefined`, `NaN`, or an ordinary (finite) number modelled as a
rational. -/
inductive JSNum where
  | null
  | undefined
  | nan
  | num (q : ℚ)
deriving DecidableEq, Repr

/-- JS `<=` between a `JSNum` and a numeric literal: `null` coerces to `0`,
`undefined` and `NaN` compare false against everything, and a finite number
compares as a rational. -/
def JSNum.jsLe : JSNum → ℚ → Bool
  | .null, c => decide ((0 : ℚ) ≤ c)
  | .undefined, _ => false
  | .nan, _ => false
  | .num q, c => decide (q ≤ c)

/-- JS truthiness of a `JSNum`: `null`, `undefined`, `NaN` and `0` are falsy,
any other finite number is truthy. -/
def JSNum.truthy : JSNum → Bool
  | .num q => decide (q ≠ 0)
  | _ => false

/-- The object returned by `getAirQualityCategory` in
`src/frontend/src/api/airquality.js`: category label, Tailwind background
color class, text color class and description. -/
structure CategoryInfo where
  category : String
  color : String
  textColor : String
  description : String
deriving DecidableEq, Repr

/-- Shallow embedding of `getAirQualityCategory` from
`src/frontend/src/api/airquality.js` (lines 59-105): null/undefined map to
the Unknown band, otherwise an if/else-if chain of `<=` comparisons against
15, 25, 37.5, 75 selects the band. -/
def getAirQualityCategory (pm25 : JSNum) : CategoryInfo :=
  if pm25 = JSNum.null ∨ pm25 = JSNum.undefined then
    ⟨"Unknown", "bg-gray-500", "text-white", "No data available"⟩
  else if pm25.jsLe 15 then
    ⟨"Good", "bg-green-500", "text-white", "Air quality is satisfactory"⟩
  else if pm25.jsLe 25 then
    ⟨"Moderate", "bg-yellow-500", "text-black", "Acceptable for most people"⟩
  else if pm25.jsLe 37.5 then
    ⟨"Unhealthy for Sensitive", "bg-orange-500", "text-white",
      "Sensitive groups may experience symptoms"⟩
  else if pm25.jsLe 75 then
    ⟨"Unhealthy", "bg-red-500", "text-white",
      "Everyone may experience health effects"⟩
  else
    ⟨"Very Unhealthy", "bg-purple-600", "text-white",
      "Health alert: everyone may experience serious effects"⟩

/-- Severity rank of a category label under the fixed ordering
Good < Moderate < Unhealthy for Sensitive < Unhealthy < Very Unhealthy;
any other label (Unknown) is ranked above all numeric bands. -/
def severityRank (c : String) : ℕ :=
  if c = "Good" then 0
  else if c = "Moderate" then 1
  else if c = "Unhealthy for Sensitive" then 2
  else if c = "Unhealthy" then 3
  else if c = "Very Unhealthy" then 4
  else 5

/-- The backend `/air-quality` response object as consumed by both `DataCard`
(`data`) and `MapView` (`airQualityData`): station name (absent in the
no-station case), distance, coordinates, pollutant and weather values,
timestamps, and optional message/warning strings. -/
structure AirQualityData where
  station_name : Option String
  distance_km : JSNum
  latitude : JSNum
  longitude : JSNum
  pm25 : JSNum
  temperature_celsius : JSNum
  relative_humidity : JSNum
  wind_speed : JSNum
  last_updated : Option String
  weather_time : Option String
  message : Option String
  warning : Option String
deriving DecidableEq, Repr

/-- Shallow embedding of `getMarkerIcon` from
`src/frontend/src/components/MapView.jsx` (lines 66-81), returning the marker
color: gray when the data object is absent or its `pm25` is falsy, otherwise
the color selected by the `<=` threshold chain. -/
def getMarkerIcon (airQualityData : Option AirQualityData) : String :=
  match airQualityData with
  | none => "#6b7280"
  | some d =>
    if ¬ d.pm25.truthy then "#6b7280"
    else if d.pm25.jsLe 15 then "#10b981"
    else if d.pm25.jsLe 25 then "#f59e0b"
    else if d.pm25.jsLe 37.5 then "#f97316"
    else if d.pm25.jsLe 75 then "#ef4444"
    else "#8b5cf6"

/-- The live-reading path of `DataCard` (line 54 of
`src/frontend/src/components/DataCard.jsx`): the category info shown for the
current observation is `getAirQualityCategory(data.pm25)`. -/
def dataCardLiveInfo (data : AirQualityData) : CategoryInfo :=
  getAirQualityCategory data.pm25

/-- The prediction path of `DataCard` (lines 190-200 of
`src/frontend/src/components/DataCard.jsx`): each predicted horizon value is
classified with `getAirQualityCategory(value)`. -/
def dataCardPredictionInfo (value : JSNum) : CategoryInfo :=
  getAirQualityCategory value

/-- The MapView hex color corresponding to each classifier band label: the
correspondence the spec's visual-consistency requirement demands between the
classifier's bands and the map marker colors (any other label, including
Unknown, maps to the no-data gray). -/
def categoryHexColor (category : String) : String :=
  if category = "Good" then "#10b981"
  else if category = "Moderate" then "#f59e0b"
  else if category = "Unhealthy for Sensitive" then "#f97316"
  else if category = "Unhealthy" then "#ef4444"
  else if category = "Very Unhealthy" then "#8b5cf6"
  else "#6b7280"

/-- Modelled from the spec: a monitoring station as returned by the external
station registry (the backend service code is absent from the repository
snapshot; only its README remains): identifier, name, most recent PM2.5
reading (nullable), and the reading timestamp. -/
structure Station where
  id : ℕ
  name : String
  pm25 : Option ℚ
  readingTime : ℕ
deriving DecidableEq, Repr

/-- Modelled from the spec: the registry interface
`query(coordinate, radius_km) -> list<Station>` specialised to a fixed query
coordinate: for each radius it returns the stations within that radius,
paired with their distance from the query point, or fails with
upstream-unavailable. -/
abbrev Registry := ℚ → Except Unit (List (Station × ℚ))

/-- Modelled from the spec: a station is a valid candidate when its latest
PM2.5 reading is non-null (staleness filtering is performed by the external
registry collaborator, as the spec permits). -/
def validStation (s : Station) : Bool :=
  s.pm25.isSome

/-- Modelled from the spec: the ordered radius tiers of the progressive
search. -/
def radiusTiers : List ℚ := [1, 5, 10, 25]

/-- Modelled from the spec: the search ceiling carried by the no-station
result. -/
def searchCeilingKm : ℚ := 25

/-- Modelled from the spec: the locator's result — either a station with its
computed distance, or a no-station-found message carrying the search ceiling
and no station reference. -/
inductive LocateResult where
  | found (station : Station) (distanceKm : ℚ)
  | notFound (ceilingKm : ℚ) (message : String)
deriving DecidableEq, Repr

/-- Modelled from the spec: candidate preference inside one tier — smaller
distance first, ties broken by more recent reading timestamp, then by
smaller station identifier. -/
def betterCandidate (a b : Station × ℚ) : Bool :=
  decide (a.2 < b.2) ||
    (decide (a.2 = b.2) &&
      (decide (b.1.readingTime < a.1.readingTime) ||
        (decide (a.1.readingTime = b.1.readingTime) && decide (a.1.id < b.1.id))))

/-- Modelled from the spec: selection of the preferred candidate within one
tier (minimum distance, ties by recency then identifier); none when the tier
has no candidate. -/
def selectBest : List (Station × ℚ) → Option (Station × ℚ)
  | [] => none
  | c :: rest =>
    match selectBest rest with
    | none => some c
    | some b => if betterCandidate b c then some b else some c

/-- Modelled from the spec: one pass of the progressive locator over the
remaining radius tiers, recording the queried tiers. Each tier queries the
registry, keeps candidates with a valid PM2.5 reading, and stops at the
first tier with a candidate; a registry failure propagates as
upstream-unavailable; exhausting all tiers yields the no-station result with
the search ceiling. -/
def locateFrom (reg : Registry) :
    List ℚ → List ℚ → Except Unit (LocateResult × List ℚ)
  | [], queried =>
    Except.ok (LocateResult.notFound searchCeilingKm
      "No station found within 25 km", queried)
  | r :: rest, queried =>
    match reg r with
    | Except.error e => Except.error e
    | Except.ok stations =>
      match selectBest (stations.filter (fun c => validStation c.1)) with
      | some (s, d) => Except.ok (LocateResult.found s d, queried ++ [r])
      | none => locateFrom reg rest (queried ++ [r])

/-- Modelled from the spec: the progressive station locator over the fixed
tiers, returning the result together with the list of queried radii. -/
def locateStation (reg : Registry) : Except Unit (LocateResult × List ℚ) :=
  locateFrom reg radiusTiers []

/-- Outcome tag of a locator run, separating the three user-visible cases:
upstream unavailable, station found, and no station within the ceiling. -/
def locateOutcome : Except Unit (LocateResult × List ℚ) → String
  | Except.error _ => "upstream unavailable"
  | Except.ok (LocateResult.found _ _, _) => "found"
  | Except.ok (LocateResult.notFound _ _, _) => "not found"

/-- Radii queried by a locator run, when it did not fail upstream. -/
def locateQueried : Except Unit (LocateResult × List ℚ) → Option (List ℚ)
  | Except.error _ => none
  | Except.ok (_, queried) => some queried

/-- A demonstration station with a valid PM2.5 reading, used to instantiate
the locator and enricher theorems. -/
def demoStation : Station :=
  ⟨1, "Lahore US Consulate", some 82.5, 100⟩

/-- A registry whose query returns the demonstration station at distance 0.8
km at every radius tier. -/
def demoRegistry : Registry :=
  fun _ => Except.ok [(demoStation, 0.8)]

/-- Modelled from the spec: a weather provider reading — temperature,
relative humidity, wind speed and an observation timestamp. -/
structure Weather where
  temperature : ℚ
  humidity : ℚ
  windSpeed : ℚ
  timestamp : ℕ
deriving DecidableEq, Repr

/-- Modelled from the spec: the observation record assembled for one
resolution request — station reference, distance, pollutant values and
timestamp, weather values and timestamp, and a non-fatal warning marker. -/
structure Observation where
  station : Option Station
  distanceKm : Option ℚ
  pm25 : Option ℚ
  pm10 : Option ℚ
  temperature : Option ℚ
  humidity : Option ℚ
  windSpeed : Option ℚ
  pollutantTime : Option ℕ
  weatherTime : Option ℕ
  warning : Bool
deriving DecidableEq, Repr

/-- Modelled from the spec: the weather enricher — merges a weather provider
result into the pollutant observation; on provider failure the weather
fields are marked unavailable and a non-fatal warning marker is attached,
and the request still succeeds as a whole. -/
def enrichWeather (base : Observation) (w : Except Unit Weather) :
    Except Unit Observation :=
  match w with
  | Except.ok wx =>
    Except.ok { base with
      temperature := some wx.temperature
      humidity := some wx.humidity
      windSpeed := some wx.windSpeed
      weatherTime := some wx.timestamp }
  | Except.error _ =>
    Except.ok { base with
      temperature := none
      humidity := none
      windSpeed := none
      weatherTime := none
      warning := true }

/-- The observation assembled from the demonstration station before weather
enrichment. -/
def demoObservation : Observation :=
  ⟨some demoStation, some 0.8, some 82.5, some 110.3, none, none, none,
    some 100, none, false⟩

/-- The demonstration observation after enrichment against a failed weather
provider. -/
def demoDegraded : Observation :=
  { demoObservation with
    temperature := none
    humidity := none
    windSpeed := none
    weatherTime := none
    warning := true }

/-- Modelled from the spec: the four forecast horizons. -/
def horizonLabels : List String := ["1h", "6h", "12h", "24h"]

/-- Modelled from the spec: the model store interface
`load(horizon) -> Model`, which may fail with model-missing per horizon; a
loaded model maps a feature vector to a raw predicted value. -/
abbrev ModelStore := String → Except Unit (List ℚ → ℚ)

/-- Modelled from the spec: one horizon's prediction — load the horizon's
model, apply it to the feature vector, and clamp the result to the
non-negative floor; a missing model yields a per-horizon error marker. -/
def predictHorizon (store : ModelStore) (fv : List ℚ) (h : String) :
    Except Unit ℚ :=
  match store h with
  | Except.error e => Except.error e
  | Except.ok m => Except.ok (max 0 (m fv))

/-- Modelled from the spec: a PredictionSet — per-horizon results (a value
or an error marker) and the overall status string. -/
structure PredictionSet where
  results : List (String × Except Unit ℚ)
  status : String
deriving Repr

/-- Modelled from the spec: whether a per-horizon result carries a value. -/
def horizonOk : Except Unit ℚ → Bool
  | Except.ok _ => true
  | Except.error _ => false

/-- Modelled from the spec: overall status — success when every horizon
produced a value, failed when none did, partial otherwise. -/
def overallStatus (results : List (String × Except Unit ℚ)) : String :=
  if results.all (fun p => horizonOk p.2) then "success"
  else if results.all (fun p => ! horizonOk p.2) then "failed"
  else "partial"

/-- Modelled from the spec: the forecast dispatcher — runs the feature
vector through each horizon's model independently and aggregates the
per-horizon results with the overall status. -/
def dispatchForecast (store : ModelStore) (fv : List ℚ) : PredictionSet :=
  let results := horizonLabels.map (fun h => (h, predictHorizon store fv h))
  ⟨results, overallStatus results⟩

/-- A model store whose 1h model artifact is missing while the other three
horizons load a constant model. -/
def demoStore : ModelStore := fun h =>
  if h = "1h" then Except.error () else Except.ok (fun _ => 10)

/-- Evaluation of the classifier on a finite numeric input: the
null/undefined guard is skipped and the band is selected by the rational
threshold comparisons, with inclusive upper bounds. -/
theorem classify_num (q : ℚ) :
    getAirQualityCategory (JSNum.num q) =
      if q ≤ 15 then
        ⟨"Good", "bg-green-500", "text-white", "Air quality is satisfactory"⟩
      else if q ≤ 25 then
        ⟨"Moderate", "bg-yellow-500", "text-black", "Acceptable for most people"⟩
      else if q ≤ 37.5 then
        ⟨"Unhealthy for Sensitive", "bg-orange-500", "text-white",
          "Sensitive groups may experience symptoms"⟩
      else if q ≤ 75 then
        ⟨"Unhealthy", "bg-red-500", "text-white",
          "Everyone may experience health effects"⟩
      else
        ⟨"Very Unhealthy", "bg-purple-600", "text-white",
          "Health alert: everyone may experience serious effects"⟩ := by
  simp [getAirQualityCategory, JSNum.jsLe]

/-- C1 counterexample: contrary to the claim, the classifier's upper bounds
are inclusive, so `classify(15)` is `Good`, not `Moderate`. -/
theorem c1_boundary_counterexample :
    (getAirQualityCategory (JSNum.num 15)).category = "Good" ∧
    (getAirQualityCategory (JSNum.num 15)).category ≠ "Moderate" := by
  constructor <;> simp [getAirQualityCategory, JSNum.jsLe]

/-- C1 (amended): the classifier applies threshold intervals with inclusive
upper bounds: `classify(14.9) = classify(15) = Good`, `classify(25) =
Moderate`, `classify(37.5) = Unhealthy for Sensitive`, `classify(75) =
Unhealthy`; in general a value equal to a band's upper bound is classified
into that band, and only values strictly above the bound fall into the next,
more severe band. -/
theorem c1_classifier_inclusive_bounds :
    (getAirQualityCategory (JSNum.num 14.9)).category = "Good" ∧
    (getAirQualityCategory (JSNum.num 15)).category = "Good" ∧
    (getAirQualityCategory (JSNum.num 25)).category = "Moderate" ∧
    (getAirQualityCategory (JSNum.num 37.5)).category = "Unhealthy for Sensitive" ∧
    (getAirQualityCategory (JSNum.num 75)).category = "Unhealthy" ∧
    ∀ q : ℚ,
      (q ≤ 15 → (getAirQualityCategory (JSNum.num q)).category = "Good") ∧
      (15 < q → q ≤ 25 →
        (getAirQualityCategory (JSNum.num q)).category = "Moderate") ∧
      (25 < q → q ≤ 37.5 →
        (getAirQualityCategory (JSNum.num q)).category = "Unhealthy for Sensitive") ∧
      (37.5 < q → q ≤ 75 →
        (getAirQualityCategory (JSNum.num q)).category = "Unhealthy") ∧
      (75 < q →
        (getAirQualityCategory (JSNum.num q)).category = "Very Unhealthy") := by
  refine ⟨?_, ?_, ?_, ?_, ?_, ?_⟩
  · simp [getAirQualityCategory, JSNum.jsLe] <;> norm_num
  · simp [getAirQualityCategory, JSNum.jsLe] <;> norm_num
  · simp [getAirQualityCategory, JSNum.jsLe] <;> norm_num
  · simp [getAirQualityCategory, JSNum.jsLe] <;> norm_num
  · simp [getAirQualityCategory, JSNum.jsLe] <;> norm_num
  · intro q
    rw [classify_num]
    split_ifs <;>
      refine ⟨?_, ?_, ?_, ?_, ?_⟩ <;>
      intros <;>
      first
        | rfl
        | (exfalso; linarith)

/-- C1 witness: instantiating the amended theorem at the concrete input 20,
which lies strictly between 15 and 25, yields the Moderate band. -/
theorem c1_classifier_inclusive_bounds_witness :
    (getAirQualityCategory (JSNum.num 20)).category = "Moderate" :=
  (c1_classifier_inclusive_bounds.2.2.2.2.2 20).2.1 (by norm_num) (by norm_num)

/-- C3: the classifier is monotonic non-decreasing in severity: for numeric
inputs `x ≤ y` the severity rank of `classify(x)` is at most that of
`classify(y)`, under Good < Moderate < Unhealthy for Sensitive < Unhealthy <
Very Unhealthy. -/
theorem c3_classifier_monotone (x y : ℚ) (h : x ≤ y) :
    severityRank (getAirQualityCategory (JSNum.num x)).category ≤
      severityRank (getAirQualityCategory (JSNum.num y)).category := by
  rw [classify_num, classify_num]
  split_ifs <;> simp [severityRank] <;> linarith

/-- C3 witness: the monotonicity theorem applied at the concrete pair
(10, 50). -/
theorem c3_classifier_monotone_witness :
    (10 : ℚ) ≤ 50 ∧
      severityRank (getAirQualityCategory (JSNum.num 10)).category ≤
        severityRank (getAirQualityCategory (JSNum.num 50)).category :=
  ⟨by norm_num, c3_classifier_monotone 10 50 (by norm_num)⟩

/-- C4: null and undefined inputs map to the Unknown band, and no finite
numeric input ever produces the Unknown band, so Unknown is distinct from
every numeric band. -/
theorem c4_null_undefined_unknown :
    (getAirQualityCategory JSNum.null).category = "Unknown" ∧
    (getAirQualityCategory JSNum.undefined).category = "Unknown" ∧
    ∀ q : ℚ, (getAirQualityCategory (JSNum.num q)).category ≠ "Unknown" := by
  refine ⟨by simp [getAirQualityCategory], by simp [getAirQualityCategory], ?_⟩
  intro q
  rw [classify_num]
  split_ifs <;> simp

/-- C9: for a NaN input every threshold comparison is false, so the
classifier falls through to the final branch and returns Very Unhealthy, not
the Unknown band reserved for null/undefined. -/
theorem c9_nan_very_unhealthy :
    (getAirQualityCategory JSNum.nan).category = "Very Unhealthy" ∧
    (getAirQualityCategory JSNum.nan).category ≠ "Unknown" := by
  constructor <;> simp [getAirQualityCategory, JSNum.jsLe]

/-- C2 counterexample: on the MapView rendering path the claimed consistency
fails at pm25 = 0: the marker is the no-data gray, while the forecast path
classifies 0 as Good, whose marker color would be green. -/
theorem c2_counterexample :
    getMarkerIcon (some ⟨some "Station", JSNum.num 3, JSNum.num 0, JSNum.num 0,
        JSNum.num 0, JSNum.num 20, JSNum.num 50, JSNum.num 2,
        none, none, none, none⟩) = "#6b7280" ∧
    (dataCardPredictionInfo (JSNum.num 0)).category = "Good" ∧
    categoryHexColor "Good" = "#10b981" ∧
    ("#6b7280" : String) ≠ "#10b981" := by
  refine ⟨?_, ?_, ?_, ?_⟩ <;>
    simp [getMarkerIcon, JSNum.truthy, dataCardPredictionInfo,
      getAirQualityCategory, JSNum.jsLe, categoryHexColor]

/-- C2 (amended): within DataCard the live-reading path and the prediction
path literally share `getAirQualityCategory`, so their categories and colors
agree for every input; MapView's marker color agrees with the classifier's
band for every nonzero finite pm25 value, but MapView treats pm25 = 0 (and
NaN) as absent data and shows the no-data gray there. -/
theorem c2_single_source_of_truth :
    (∀ (d : AirQualityData) (v : JSNum), d.pm25 = v →
      dataCardLiveInfo d = dataCardPredictionInfo v) ∧
    (∀ (d : AirQualityData) (q : ℚ), d.pm25 = JSNum.num q → q ≠ 0 →
      getMarkerIcon (some d) =
        categoryHexColor (getAirQualityCategory (JSNum.num q)).category) := by
  constructor
  · intro d v h
    simp [dataCardLiveInfo, dataCardPredictionInfo, h]
  · intro d q h hq
    rw [classify_num]
    simp only [getMarkerIcon, h, JSNum.truthy, JSNum.jsLe, decide_eq_true_eq]
    split_ifs <;> simp_all [categoryHexColor]

/-- C2 witness: both parts of the amended theorem applied at a data object
with pm25 = 20, which DataCard and MapView both render as the Moderate
band/color. -/
theorem c2_single_source_of_truth_witness :
    dataCardLiveInfo ⟨some "Station", JSNum.num 3, JSNum.num 0, JSNum.num 0,
        JSNum.num 20, JSNum.num 20, JSNum.num 50, JSNum.num 2,
        none, none, none, none⟩ = dataCardPredictionInfo (JSNum.num 20) ∧
    getMarkerIcon (some ⟨some "Station", JSNum.num 3, JSNum.num 0, JSNum.num 0,
        JSNum.num 20, JSNum.num 20, JSNum.num 50, JSNum.num 2,
        none, none, none, none⟩) =
      categoryHexColor (getAirQualityCategory (JSNum.num 20)).category :=
  ⟨c2_single_source_of_truth.1 _ (JSNum.num 20) rfl,
    c2_single_source_of_truth.2 _ 20 rfl (by norm_num)⟩

/-- C10: MapView's falsy guard treats pm25 = 0 as absent data, so the marker
is the gray no-data icon rather than the green Good icon, even though the
classifier used by DataCard puts pm25 = 0 in the Good band. -/
theorem c10_zero_pm25_gray_marker (d : AirQualityData)
    (h : d.pm25 = JSNum.num 0) :
    getMarkerIcon (some d) = "#6b7280" ∧
    getMarkerIcon (some d) ≠ "#10b981" ∧
    (getAirQualityCategory d.pm25).category = "Good" := by
  refine ⟨?_, ?_, ?_⟩ <;>
    simp [getMarkerIcon, h, JSNum.truthy, getAirQualityCategory, JSNum.jsLe]

/-- Selection within a nonempty tier always yields a candidate. -/
theorem selectBest_isSome (l : List (Station × ℚ)) (h : l ≠ []) :
    ∃ b, selectBest l = some b := by
  cases l with
  | nil => simp at h
  | cons c rest =>
    cases hr : selectBest rest with
    | none => exact ⟨c, by simp [selectBest, hr]⟩
    | some b =>
      by_cases hb : betterCandidate b c
      · exact ⟨b, by simp [selectBest, hr, hb]⟩
      · exact ⟨c, by simp [selectBest, hr, hb]⟩

/-- C5: when every tier up to the 25 km ceiling yields no valid station, the
locator returns the no-station result carrying the 25 km ceiling (a message
value with no station reference) as an ordinary value, not an exception, and
its outcome is distinguishable from the upstream-unavailable failure. -/
theorem c5_no_station_within_ceiling (reg : Registry)
    (h : ∀ r ∈ radiusTiers, ∃ l, reg r = Except.ok l ∧
        l.filter (fun c => validStation c.1) = []) :
    locateStation reg =
      Except.ok (LocateResult.notFound 25 "No station found within 25 km",
        radiusTiers) ∧
    locateOutcome (locateStation reg) = "not found" ∧
    locateOutcome (Except.error ()) = "upstream unavailable" ∧
    ("not found" : String) ≠ "upstream unavailable" := by
  obtain ⟨l1, h1, e1⟩ := h 1 (by simp [radiusTiers])
  obtain ⟨l2, h2, e2⟩ := h 5 (by simp [radiusTiers])
  obtain ⟨l3, h3, e3⟩ := h 10 (by simp [radiusTiers])
  obtain ⟨l4, h4, e4⟩ := h 25 (by simp [radiusTiers])
  have hrun : locateStation reg =
      Except.ok (LocateResult.notFound 25 "No station found within 25 km",
        radiusTiers) := by
    simp [locateStation, locateFrom, radiusTiers, searchCeilingKm,
      h1, h2, h3, h4, e1, e2, e3, e4, selectBest]
  refine ⟨hrun, ?_, by simp [locateOutcome], by simp⟩
  rw [hrun]
  simp [locateOutcome]

/-- C5 witness: the theorem applied to the registry that returns an empty
station list at every radius. -/
theorem c5_no_station_within_ceiling_witness :
    locateStation (fun _ => Except.ok []) =
      Except.ok (LocateResult.notFound 25 "No station found within 25 km",
        radiusTiers) ∧
    locateOutcome (locateStation (fun _ => Except.ok [])) = "not found" ∧
    locateOutcome (Except.error ()) = "upstream unavailable" ∧
    ("not found" : String) ≠ "upstream unavailable" :=
  c5_no_station_within_ceiling (fun _ => Except.ok [])
    (fun _r _ => ⟨[], rfl, rfl⟩)

/-- C8: the tiers are searched in the fixed increasing order 1, 5, 10, 25
km, and if already the 1 km tier yields a station with a non-null PM2.5
reading the locator stops there: the only queried radius is 1 km and the
outcome is a found station. -/
theorem c8_first_tier_stops (reg : Registry) (l : List (Station × ℚ))
    (h1 : reg 1 = Except.ok l)
    (h2 : l.filter (fun c => validStation c.1) ≠ []) :
    radiusTiers = [1, 5, 10, 25] ∧
    locateQueried (locateStation reg) = some [1] ∧
    locateOutcome (locateStation reg) = "found" := by
  obtain ⟨⟨s, d⟩, hb⟩ := selectBest_isSome _ h2
  have hrun : locateStation reg =
      Except.ok (LocateResult.found s d, [1]) := by
    simp [locateStation, locateFrom, radiusTiers, h1, hb]
  exact ⟨rfl, by rw [hrun]; rfl, by rw [hrun]; rfl⟩

/-- C8 witness: the theorem applied to the demonstration registry, whose 1
km tier already contains a valid station at 0.8 km. -/
theorem c8_first_tier_stops_witness :
    radiusTiers = [1, 5, 10, 25] ∧
    locateQueried (locateStation demoRegistry) = some [1] ∧
    locateOutcome (locateStation demoRegistry) = "found" :=
  c8_first_tier_stops demoRegistry [(demoStation, 0.8)] rfl
    (by simp [validStation, demoStation])

/-- C10 witness: the gray-marker theorem applied at a concrete data object
whose pm25 field is 0. -/
theorem c10_zero_pm25_gray_marker_witness :
    getMarkerIcon (some ⟨some "Station", JSNum.num 3, JSNum.num 0, JSNum.num 0,
        JSNum.num 0, JSNum.num 20, JSNum.num 50, JSNum.num 2,
        none, none, none, some "w"⟩) = "#6b7280" ∧
    getMarkerIcon (some ⟨some "Station", JSNum.num 3, JSNum.num 0, JSNum.num 0,
        JSNum.num 0, JSNum.num 20, JSNum.num 50, JSNum.num 2,
        none, none, none, some "w"⟩) ≠ "#10b981" ∧
    (getAirQualityCategory (AirQualityData.pm25 ⟨some "Station", JSNum.num 3,
        JSNum.num 0, JSNum.num 0, JSNum.num 0, JSNum.num 20, JSNum.num 50,
        JSNum.num 2, none, none, none, some "w"⟩)).category = "Good" :=
  c10_zero_pm25_gray_marker _ rfl

/-- C6: when a valid station was found and the weather provider fails, the
enriched observation keeps all pollutant and station fields populated as
before, has every weather field marked unavailable, carries the non-fatal
warning marker, and the overall request still succeeds. -/
theorem c6_weather_degradation (base r : Observation)
    (hs : base.station.isSome = true)
    (hr : enrichWeather base (Except.error ()) = Except.ok r) :
    r.station = base.station ∧ r.station.isSome = true ∧
    r.distanceKm = base.distanceKm ∧ r.pm25 = base.pm25 ∧
    r.pm10 = base.pm10 ∧ r.pollutantTime = base.pollutantTime ∧
    r.temperature = none ∧ r.humidity = none ∧ r.windSpeed = none ∧
    r.weatherTime = none ∧ r.warning = true ∧
    enrichWeather base (Except.error ()) ≠ Except.error () := by
  simp only [enrichWeather, Except.ok.injEq] at hr
  subst hr
  simp [enrichWeather, hs]

/-- C6 witness: the degradation theorem applied to the demonstration
observation and a failed weather provider. -/
theorem c6_weather_degradation_witness :
    demoDegraded.station = demoObservation.station ∧
    demoDegraded.station.isSome = true ∧
    demoDegraded.distanceKm = demoObservation.distanceKm ∧
    demoDegraded.pm25 = demoObservation.pm25 ∧
    demoDegraded.pm10 = demoObservation.pm10 ∧
    demoDegraded.pollutantTime = demoObservation.pollutantTime ∧
    demoDegraded.temperature = none ∧ demoDegraded.humidity = none ∧
    demoDegraded.windSpeed = none ∧ demoDegraded.weatherTime = none ∧
    demoDegraded.warning = true ∧
    enrichWeather demoObservation (Except.error ()) ≠ Except.error () :=
  c6_weather_degradation demoObservation demoDegraded rfl rfl

/-- C7: the PredictionSet status is partial whenever at least one but not
all horizons produce a value, and failed exactly when every horizon errors;
an erroring horizon contributes a per-horizon error marker to the results,
and a horizon whose model loads contributes its own clamped value regardless
of the other horizons. -/
theorem c7_prediction_status (store : ModelStore) (fv : List ℚ) :
    ((∃ h ∈ horizonLabels, horizonOk (predictHorizon store fv h) = true) →
      (∃ h ∈ horizonLabels, horizonOk (predictHorizon store fv h) = false) →
      (dispatchForecast store fv).status = "partial") ∧
    ((dispatchForecast store fv).status = "failed" ↔
      ∀ h ∈ horizonLabels, horizonOk (predictHorizon store fv h) = false) ∧
    (∀ h ∈ horizonLabels, store h = Except.error () →
      (h, (Except.error () : Except Unit ℚ)) ∈
        (dispatchForecast store fv).results) ∧
    (∀ h ∈ horizonLabels, ∀ m, store h = Except.ok m →
      (h, Except.ok (max 0 (m fv))) ∈ (dispatchForecast store fv).results) := by
  cases e1 : store "1h" <;> cases e2 : store "6h" <;>
    cases e3 : store "12h" <;> cases e4 : store "24h" <;>
    simp [dispatchForecast, overallStatus, predictHorizon, horizonLabels,
      horizonOk, e1, e2, e3, e4]

/-- C7 witness: with the 1h model missing and the other three horizons
succeeding, the status-partial part of the theorem applies. -/
theorem c7_prediction_status_witness :
    (dispatchForecast demoStore [(82.5 : ℚ)]).status = "partial" :=
  (c7_prediction_status demoStore [(82.5 : ℚ)]).1
    ⟨"6h", by simp [horizonLabels],
      by simp [predictHorizon, demoStore, horizonOk]⟩
    ⟨"1h", by simp [horizonLabels],
      by simp [predictHorizon, demoStore, horizonOk]⟩
